import Mathlib

/-!
Shallow embedding of `src/static/main.js` (class `MedicalImageUploader`),
a browser upload controller for a tumor-classification endpoint.

The controller state is the record of DOM-reflected facts the script reads
and writes: the selected file, the visibility flags of the file-info block,
the progress bar, and the results card, the analyze-button enablement, the
preview pane content, the progress bar value and label, the rendered result,
and the list of alert notifications appended to the alert container.
Outbound `fetch` calls are counted in `fetchCount`; the network and the
JSON bodies it returns are environment inputs (`FetchOutcome`).

Pure DOM mutations of the script become field updates; the `async` method
`analyzeFile` becomes a function of the state and of the fetch outcome,
split at its `await fetch` point into `analyzeStart` (the synchronous
prefix) and `analyzeResume` (the continuation including `catch`/`finally`)
so that an event-level step relation can interleave user events with an
in-flight request.
-/

/-- A file as the script observes it: `file.name`, `file.size`, `file.type`. -/
structure JsFile where
  name : String
  size : Nat
  mime : String
deriving DecidableEq, Repr

/-- Alert class, from `showAlert`: the `alert-success` / `alert-error` CSS class. -/
inductive AlertType where
  | success
  | error
deriving DecidableEq, Repr

/-- One alert node appended to `alertContainer` by `showAlert`; `dismissMs` is the
`setTimeout(() => alertDiv.remove(), 5000)` delay. -/
structure Alert where
  message : String
  alertType : AlertType
  dismissMs : Nat
deriving DecidableEq, Repr

/-- Content of the `filePreview` pane. `createFilePreview` starts an asynchronous
`FileReader` decode for `image/*` files and writes the decoded thumbnail in its
`onload` callback; the decode is collapsed to its completed effect (`image f`),
since no verified claim distinguishes the pending decode from the finished one.
Non-image files get the placeholder markup with the file name. -/
inductive PreviewContent where
  | empty
  | image (f : JsFile)
  | placeholder (name : String)
deriving DecidableEq, Repr

/-- Which visual branch `showResults` chose: `resultClass` is `tumor` or `notumor`. -/
inductive ResultBranch where
  | tumor
  | notumor
deriving DecidableEq, Repr

/-- The markup `showResults` writes into `resultsContent`: the branch class, the
icon and color picked by the branch, the interpolated `${prediction}` text
(inserted verbatim), and the inline `text-transform` style applied to it
(the template carries `text-transform: capitalize;`). -/
structure RenderedResult where
  branch : ResultBranch
  icon : String
  color : String
  labelText : String
  labelTransform : String
deriving DecidableEq, Repr

/-- Controller state: the instance fields of `MedicalImageUploader` plus the
DOM state it owns, and a counter of issued `fetch` calls. -/
structure UploaderState where
  currentFile : Option JsFile
  maxFileSize : Nat
  allowedFormats : List String
  fileInputValue : String
  fileInfoVisible : Bool
  fileNameText : String
  fileSizeText : String
  filePreview : PreviewContent
  analyzeBtnDisabled : Bool
  progressVisible : Bool
  progressFillPercent : Nat
  progressText : String
  resultsCardVisible : Bool
  resultsContent : Option RenderedResult
  alerts : List Alert
  fetchCount : Nat
deriving DecidableEq, Repr

/-- Modelled from the spec: the initial Empty state. The HTML page hosting the
script is not under `src/`; per the spec the controller starts in the Empty
state (no file, analyze action disabled, progress and results hidden, empty
preview). The constructor itself sets `maxFileSize = 50 * 1024 * 1024` and the
`allowedFormats` list. -/
def initState : UploaderState where
  currentFile := none
  maxFileSize := 50 * 1024 * 1024
  allowedFormats := ["png", "jpg", "jpeg", "gif", "bmp", "tiff"]
  fileInputValue := ""
  fileInfoVisible := false
  fileNameText := ""
  fileSizeText := ""
  filePreview := PreviewContent.empty
  analyzeBtnDisabled := true
  progressVisible := false
  progressFillPercent := 0
  progressText := ""
  resultsCardVisible := false
  resultsContent := none
  alerts := []
  fetchCount := 0

/-- `showAlert(message, type)`: append an alert node; it auto-removes after 5000 ms. -/
def showAlert (s : UploaderState) (message : String) (alertType : AlertType) : UploaderState :=
  { s with alerts := s.alerts ++ [{ message := message, alertType := alertType, dismissMs := 5000 }] }

/-- `validateFile(file)`: the only check performed is `file.size > this.maxFileSize`;
the `allowedFormats` field is never consulted. The valid result carries no message. -/
def validateFile (s : UploaderState) (f : JsFile) : Bool × Option String :=
  if f.size > s.maxFileSize then (false, some "File size exceeds 50MB limit.")
  else (true, none)

/-- Abstraction of `formatFileSize(bytes)`. The source formats the byte count with
floating-point `Math.log` / `toFixed`; the exact rendered string is irrelevant to
every verified claim, so the display string is abstracted to a pure function of
the byte count. -/
def formatFileSize (bytes : Nat) : String :=
  toString bytes ++ " Bytes"

/-- `displayFileInfo(file)`: write name and formatted size, show the info block. -/
def displayFileInfo (s : UploaderState) (f : JsFile) : UploaderState :=
  { s with fileNameText := f.name, fileSizeText := formatFileSize f.size, fileInfoVisible := true }

/-- `createFilePreview(file)`: `image/*` MIME types get a decoded thumbnail
(see `PreviewContent`), other types the placeholder markup with the name. -/
def createFilePreview (s : UploaderState) (f : JsFile) : UploaderState :=
  { s with
      filePreview :=
        if f.mime.startsWith "image/" then PreviewContent.image f
        else PreviewContent.placeholder f.name }

/-- `enableAnalyzeButton()`. -/
def enableAnalyzeButton (s : UploaderState) : UploaderState :=
  { s with analyzeBtnDisabled := false }

/-- `hideResults()`. -/
def hideResults (s : UploaderState) : UploaderState :=
  { s with resultsCardVisible := false }

/-- `showProgress()`. -/
def showProgress (s : UploaderState) : UploaderState :=
  { s with progressVisible := true }

/-- `hideProgress()`. -/
def hideProgress (s : UploaderState) : UploaderState :=
  { s with progressVisible := false }

/-- `updateProgress(percentage, text)`. -/
def updateProgress (s : UploaderState) (percentage : Nat) (text : String) : UploaderState :=
  { s with progressFillPercent := percentage, progressText := text }

/-- `processFile(file)`: validate; on failure show the error alert and return with
no other change; on success set `currentFile`, display info, create the preview,
enable the analyze button and hide prior results, in source order. -/
def processFile (s : UploaderState) (f : JsFile) : UploaderState :=
  match validateFile s f with
  | (false, m) => showAlert s (m.getD "undefined") AlertType.error
  | (true, _) =>
      hideResults (enableAnalyzeButton (createFilePreview (displayFileInfo
        { s with currentFile := some f } f) f))

/-- `removeFile()`: clear the file and the input value, hide the info block,
disable analyze, hide progress and results, clear the preview. -/
def removeFile (s : UploaderState) : UploaderState :=
  { s with
      currentFile := none
      fileInputValue := ""
      fileInfoVisible := false
      analyzeBtnDisabled := true
      progressVisible := false
      resultsCardVisible := false
      filePreview := PreviewContent.empty }

/-- JS `String.prototype.toLowerCase()`: lowercase each character (it agrees
with a per-character lowercase map on the ASCII labels this endpoint produces). -/
def jsToLowerCase (s : String) : String :=
  String.mk (s.data.map Char.toLower)

/-- `showResults(prediction)`: `isTumor`, computed by comparing the lowercased
prediction against the sentinel `notumor`,
selects the class, icon and color; the label itself is interpolated verbatim into
the markup, under an inline `text-transform: capitalize;` style; then the results
card is shown. -/
def showResults (s : UploaderState) (prediction : String) : UploaderState :=
  let isTumor := jsToLowerCase prediction ≠ "notumor"
  { s with
      resultsContent := some
        { branch := if isTumor then ResultBranch.tumor else ResultBranch.notumor
          icon := if isTumor then "fa-exclamation-triangle" else "fa-check-circle"
          color := if isTumor then "var(--warning)" else "var(--success)"
          labelText := prediction
          labelTransform := "capitalize" }
      resultsCardVisible := true }

/-- Helper for CSS rendering of the result label: `text-transform: capitalize`
uppercases the first letter of each word (word boundary approximated as any
non-letter character, which is exact for the single-word labels at issue). -/
def capAux : Bool → List Char → List Char
  | _, [] => []
  | atWordStart, c :: cs =>
      if c.isAlpha then (if atWordStart then c.toUpper else c) :: capAux false cs
      else c :: capAux true cs

/-- CSS `text-transform: capitalize` applied to a string. -/
def cssCapitalize (s : String) : String :=
  String.mk (capAux true s.data)

/-- The text the user actually sees for a rendered result: the verbatim label
text as transformed by the inline `text-transform` style on its paragraph. -/
def displayedLabel (r : RenderedResult) : String :=
  if r.labelTransform = "capitalize" then cssCapitalize r.labelText else r.labelText

/-- Outcome of `await response.json()`: the promise rejects with a parse error
(message chosen by the JS engine), or yields an object whose optional fields
`error` and `prediction` the script reads. A field holding a non-string value
(on which `.toLowerCase` would equally throw) is modelled as absent. A JSON
body that parses to `null` (field access throws) behaves like the thrown parse
error and is subsumed by that constructor. -/
inductive BodyOutcome where
  | parseError (msg : String)
  | obj (error : Option String) (prediction : Option String)
deriving DecidableEq, Repr

/-- Outcome of `await fetch(...)`: the promise rejects with a network error
(message chosen by the engine), or resolves to a response with `response.ok`
and a body. -/
inductive FetchOutcome where
  | networkError (msg : String)
  | response (ok : Bool) (body : BodyOutcome)
deriving DecidableEq, Repr

/-- JS `a || b` on the optional string field `errorData.error`: the empty string
is falsy, so it also falls through to the default. -/
def jsStringOr (v : Option String) (d : String) : String :=
  match v with
  | some x => if x = "" then d else x
  | none => d

/-- Engine-supplied `TypeError` message thrown by `prediction.toLowerCase()` when
the `prediction` field is absent; its exact wording is engine-dependent and no
claim depends on it, only on the alert being an error alert. -/
def typeErrorMissingPrediction : String :=
  "Cannot read properties of undefined (reading toLowerCase)"

/-- The `catch (error)` block of `analyzeFile`: hide progress, log, and show
the alert `Analysis failed: ${error.message}`. -/
def catchHandler (s : UploaderState) (msg : String) : UploaderState :=
  showAlert (hideProgress s) ("Analysis failed: " ++ msg) AlertType.error

/-- The `finally` block of `analyzeFile`: re-enable the analyze button. -/
def finallyHandler (s : UploaderState) : UploaderState :=
  { s with analyzeBtnDisabled := false }

/-- Synchronous prefix of `analyzeFile()` up to and including the issuing of
`fetch`: the guard (`if (!this.currentFile)` shows the alert and returns before
the `try`, so the `finally` does not run), then show progress, disable the
button, set progress to 30%, and issue the request. The returned flag records
whether a fetch was issued (and hence whether a continuation is pending). -/
def analyzeStart (s : UploaderState) : UploaderState × Bool :=
  match s.currentFile with
  | none => (showAlert s "No file selected for analysis" AlertType.error, false)
  | some _ =>
      let s1 := showProgress s
      let s2 := { s1 with analyzeBtnDisabled := true }
      let s3 := updateProgress s2 30 "Uploading to secure server..."
      ({ s3 with fetchCount := s3.fetchCount + 1 }, true)

/-- Continuation of `analyzeFile()` from the settling of the `fetch` promise,
including the `catch` and `finally` blocks. On a resolved response: progress to
80%; non-ok responses parse the body and throw an error carrying the `error`
field when it is truthy, else the generic `Server error during analysis.`
message (a body parse rejection propagates its own message); ok
responses parse the body, set progress to 100%, wait 500 ms (no state), hide
progress, render the result (`showResults` throws before touching the DOM when
`prediction` is absent) and show the success alert. Every throw lands in
`catchHandler`; `finallyHandler` always runs. -/
def analyzeResume (s : UploaderState) (o : FetchOutcome) : UploaderState :=
  finallyHandler
    (match o with
     | FetchOutcome.networkError msg => catchHandler s msg
     | FetchOutcome.response ok body =>
        let s1 := updateProgress s 80 "AI model is analyzing the scan..."
        if ok then
          match body with
          | BodyOutcome.parseError m => catchHandler s1 m
          | BodyOutcome.obj _ pred =>
              let s2 := updateProgress s1 100 "Analysis complete!"
              let s3 := hideProgress s2
              match pred with
              | none => catchHandler s3 typeErrorMissingPrediction
              | some p =>
                  showAlert (showResults s3 p) "Analysis completed successfully!"
                    AlertType.success
        else
          match body with
          | BodyOutcome.parseError m => catchHandler s1 m
          | BodyOutcome.obj err _ =>
              catchHandler s1 (jsStringOr err "Server error during analysis."))

/-- `analyzeFile()` run to completion against a given fetch outcome: the
synchronous prefix, then, when a request was issued, the continuation. -/
def analyzeFile (s : UploaderState) (o : FetchOutcome) : UploaderState :=
  match analyzeStart s with
  | (s1, false) => s1
  | (s1, true) => analyzeResume s1 o

/-!
Event-level machine. The page is single-threaded and event-driven: user events
(file selection via picker or drop, remove, analyze click) and the settling of
an in-flight `fetch` are serialized by the event loop. `inFlight` counts issued
requests whose continuation has not yet run. A click on the analyze button only
fires when the button is enabled (a disabled button dispatches no click event).
The post-fetch continuation is executed as one step; its internal awaits do not
affect any property stated here.
-/

/-- Machine state: the controller plus the number of in-flight requests. -/
structure MachineState where
  ctrl : UploaderState
  inFlight : Nat
deriving DecidableEq, Repr

/-- Initial machine state: the Empty controller, no request in flight. -/
def initMachine : MachineState where
  ctrl := initState
  inFlight := 0

/-- One event-loop step of the page. -/
inductive Step : MachineState → MachineState → Prop where
  | select (m : MachineState) (f : JsFile) :
      Step m { ctrl := processFile m.ctrl f, inFlight := m.inFlight }
  | remove (m : MachineState) :
      Step m { ctrl := removeFile m.ctrl, inFlight := m.inFlight }
  | clickNoFile (m : MachineState)
      (henabled : m.ctrl.analyzeBtnDisabled = false)
      (hfile : m.ctrl.currentFile = none) :
      Step m { ctrl := (analyzeStart m.ctrl).1, inFlight := m.inFlight }
  | clickStart (m : MachineState)
      (henabled : m.ctrl.analyzeBtnDisabled = false)
      (hfile : m.ctrl.currentFile ≠ none) :
      Step m { ctrl := (analyzeStart m.ctrl).1, inFlight := m.inFlight + 1 }
  | settle (m : MachineState) (o : FetchOutcome)
      (hpending : 1 ≤ m.inFlight) :
      Step m { ctrl := analyzeResume m.ctrl o, inFlight := m.inFlight - 1 }

/-- States the page can reach from load. -/
def Reachable (m : MachineState) : Prop :=
  Relation.ReflTransGen Step initMachine m

/-- The step relation restricted to executions in which the user never selects
a file while a request is in flight (every other event stays available). -/
inductive StepNoReselect : MachineState → MachineState → Prop where
  | select (m : MachineState) (f : JsFile) (hidle : m.inFlight = 0) :
      StepNoReselect m { ctrl := processFile m.ctrl f, inFlight := m.inFlight }
  | remove (m : MachineState) :
      StepNoReselect m { ctrl := removeFile m.ctrl, inFlight := m.inFlight }
  | clickNoFile (m : MachineState)
      (henabled : m.ctrl.analyzeBtnDisabled = false)
      (hfile : m.ctrl.currentFile = none) :
      StepNoReselect m { ctrl := (analyzeStart m.ctrl).1, inFlight := m.inFlight }
  | clickStart (m : MachineState)
      (henabled : m.ctrl.analyzeBtnDisabled = false)
      (hfile : m.ctrl.currentFile ≠ none) :
      StepNoReselect m { ctrl := (analyzeStart m.ctrl).1, inFlight := m.inFlight + 1 }
  | settle (m : MachineState) (o : FetchOutcome)
      (hpending : 1 ≤ m.inFlight) :
      StepNoReselect m { ctrl := analyzeResume m.ctrl o, inFlight := m.inFlight - 1 }

/-- States reachable without ever selecting a file during an in-flight request. -/
def ReachableNoReselect (m : MachineState) : Prop :=
  Relation.ReflTransGen StepNoReselect initMachine m

/-- Starting an analysis with a file present disables the button. -/
theorem analyzeStart_disables (s : UploaderState) (h : s.currentFile ≠ none) :
    ((analyzeStart s).1).analyzeBtnDisabled = true := by
  match hs : s.currentFile with
  | none => exact absurd hs h
  | some f =>
      simp [analyzeStart, hs, showProgress, updateProgress]

/-- Starting an analysis never appends an alert or changes the alert list. -/
theorem analyzeStart_alerts (s : UploaderState) (h : s.currentFile ≠ none) :
    ((analyzeStart s).1).alerts = s.alerts := by
  match hs : s.currentFile with
  | none => exact absurd hs h
  | some f =>
      simp [analyzeStart, hs, showProgress, updateProgress]

/-!
Concrete inputs used by witnesses and counterexamples: a 2 MiB PNG, a 60 MiB
file, a small file with a non-image extension and MIME type, and the states
reached from page load by selecting and analyzing the PNG.
-/

/-- A 2 MiB PNG scan. -/
def exFile : JsFile where
  name := "scan.png"
  size := 2097152
  mime := "image/png"

/-- A 60 MiB file, over the 50 MiB limit. -/
def bigFile : JsFile where
  name := "scan.tiff"
  size := 62914560
  mime := "image/tiff"

/-- A small file whose extension and MIME type are outside `allowedFormats`. -/
def oddFile : JsFile where
  name := "scan.exe"
  size := 1000
  mime := "application/pdf"

/-- The state after loading the page and selecting `exFile`. -/
def csA : UploaderState := processFile initState exFile

/-- A successful-analysis fetch outcome: 2xx with body `{ prediction: "Glioma" }`. -/
def outcomeGlioma : FetchOutcome :=
  FetchOutcome.response true (BodyOutcome.obj none (some "Glioma"))

/-- The state after a completed successful analysis of `exFile`: results shown. -/
def csB : UploaderState := analyzeFile csA outcomeGlioma

/-- Appending distinct singletons to the same prefix is impossible: cancellation. -/
theorem alert_singleton_eq {pre : List Alert} {a b : Alert} (h : pre ++ [a] = pre ++ [b]) :
    a = b := by
  simpa using List.append_cancel_left h

/-- The call produced the success outcome: results card shown and exactly the
success alert appended. -/
def analysisSuccessShown (s t : UploaderState) : Prop :=
  t.resultsCardVisible = true ∧
  t.alerts = s.alerts ++
    [{ message := "Analysis completed successfully!", alertType := AlertType.success,
       dismissMs := 5000 }]

/-- The call produced the error outcome: exactly one error alert appended. -/
def analysisErrorNotified (s t : UploaderState) : Prop :=
  ∃ msg, t.alerts = s.alerts ++
    [{ message := msg, alertType := AlertType.error, dismissMs := 5000 }]

/-- With a file selected, `analyzeFile` is the issued request followed by its
continuation. -/
theorem analyzeFile_some (s : UploaderState) (f : JsFile) (o : FetchOutcome)
    (h : s.currentFile = some f) :
    analyzeFile s o = analyzeResume (analyzeStart s).1 o := by
  unfold analyzeFile analyzeStart
  rw [h]

/-- The continuation always ends with the progress indicator hidden. -/
theorem analyzeResume_progress (s : UploaderState) (o : FetchOutcome) :
    (analyzeResume s o).progressVisible = false := by
  cases o with
  | networkError msg =>
      simp [analyzeResume, finallyHandler, catchHandler, showAlert, hideProgress]
  | response ok body =>
      cases body with
      | parseError m =>
          cases ok <;>
            simp [analyzeResume, finallyHandler, catchHandler, showAlert, hideProgress,
              updateProgress]
      | obj err pred =>
          cases ok with
          | false =>
              simp [analyzeResume, finallyHandler, catchHandler, showAlert, hideProgress,
                updateProgress]
          | true =>
              cases pred <;>
                simp [analyzeResume, finallyHandler, catchHandler, showAlert, hideProgress,
                  updateProgress, showResults]

/-- The continuation always ends with the analyze button enabled (the `finally`). -/
theorem analyzeResume_btn (s : UploaderState) (o : FetchOutcome) :
    (analyzeResume s o).analyzeBtnDisabled = false := by
  simp [analyzeResume, finallyHandler]

/-- The continuation appends exactly one alert: the success alert together with
showing the results card, or a single error alert. -/
theorem analyzeResume_alert_cases (s : UploaderState) (o : FetchOutcome) :
    ((analyzeResume s o).resultsCardVisible = true ∧
      (analyzeResume s o).alerts = s.alerts ++
        [{ message := "Analysis completed successfully!", alertType := AlertType.success,
           dismissMs := 5000 }]) ∨
    (∃ msg, (analyzeResume s o).alerts = s.alerts ++
      [{ message := msg, alertType := AlertType.error, dismissMs := 5000 }]) := by
  cases o with
  | networkError msg =>
      exact Or.inr ⟨"Analysis failed: " ++ msg,
        by simp [analyzeResume, finallyHandler, catchHandler, showAlert, hideProgress]⟩
  | response ok body =>
      cases body with
      | parseError m =>
          refine Or.inr ⟨"Analysis failed: " ++ m, ?_⟩
          cases ok <;>
            simp [analyzeResume, finallyHandler, catchHandler, showAlert, hideProgress,
              updateProgress]
      | obj err pred =>
          cases ok with
          | false =>
              exact Or.inr ⟨"Analysis failed: " ++ jsStringOr err "Server error during analysis.",
                by simp [analyzeResume, finallyHandler, catchHandler, showAlert, hideProgress,
                  updateProgress]⟩
          | true =>
              cases pred with
              | none =>
                  exact Or.inr ⟨"Analysis failed: " ++ typeErrorMissingPrediction,
                    by simp [analyzeResume, finallyHandler, catchHandler, showAlert, hideProgress,
                      updateProgress]⟩
              | some p =>
                  exact Or.inl
                    ⟨by simp [analyzeResume, finallyHandler, showAlert, hideProgress,
                        updateProgress, showResults],
                      by simp [analyzeResume, finallyHandler, showAlert, hideProgress,
                        updateProgress, showResults]⟩

/-- C1: every completed `analyze()` call with a file selected ends with the
progress indicator hidden and produces exactly one of the two outcomes: the
results card shown with the success notification, or an error notification. -/
theorem claim_C1 (s : UploaderState) (f : JsFile) (o : FetchOutcome)
    (h : s.currentFile = some f) :
    (analyzeFile s o).progressVisible = false ∧
    ((analysisSuccessShown s (analyzeFile s o) ∧
        ¬ analysisErrorNotified s (analyzeFile s o)) ∨
     (analysisErrorNotified s (analyzeFile s o) ∧
        ¬ analysisSuccessShown s (analyzeFile s o))) := by
  have hne : s.currentFile ≠ none := by simp [h]
  rw [analyzeFile_some s f o h]
  have halerts := analyzeStart_alerts s hne
  refine ⟨analyzeResume_progress _ _, ?_⟩
  rcases analyzeResume_alert_cases (analyzeStart s).1 o with ⟨hvis, hal⟩ | ⟨msg, hal⟩
  · refine Or.inl ⟨⟨hvis, by rw [hal, halerts]⟩, ?_⟩
    rintro ⟨m, hm⟩
    rw [hal, halerts] at hm
    have := alert_singleton_eq hm
    simp [Alert.mk.injEq] at this
  · refine Or.inr ⟨⟨msg, by rw [hal, halerts]⟩, ?_⟩
    rintro ⟨_, hsucc⟩
    rw [hal, halerts] at hsucc
    have := alert_singleton_eq hsucc
    simp [Alert.mk.injEq] at this

/-- C1 witness: a concrete successful analysis of the selected 2 MiB PNG. -/
theorem claim_C1_witness :
    (analyzeFile csA outcomeGlioma).progressVisible = false ∧
    ((analysisSuccessShown csA (analyzeFile csA outcomeGlioma) ∧
        ¬ analysisErrorNotified csA (analyzeFile csA outcomeGlioma)) ∨
     (analysisErrorNotified csA (analyzeFile csA outcomeGlioma) ∧
        ¬ analysisSuccessShown csA (analyzeFile csA outcomeGlioma))) :=
  claim_C1 csA exFile outcomeGlioma rfl

/-- C2: whenever a file is selected, a completed `analyze()` call re-enables the
analyze trigger, whatever the fetch outcome (success, network error, non-2xx
response, or an exception while handling the response). -/
theorem claim_C2 (s : UploaderState) (f : JsFile) (o : FetchOutcome)
    (h : s.currentFile = some f) :
    (analyzeFile s o).analyzeBtnDisabled = false := by
  rw [analyzeFile_some s f o h]
  exact analyzeResume_btn _ _

/-- C2 witness: the trigger is re-enabled after a concrete network failure. -/
theorem claim_C2_witness :
    (analyzeFile csA (FetchOutcome.networkError "Failed to fetch")).analyzeBtnDisabled = false :=
  claim_C2 csA exFile (FetchOutcome.networkError "Failed to fetch") rfl

/-- C3: a file strictly larger than the configured maximum is rejected by
`processFile`: the whole effect is one error alert that auto-dismisses after
5 seconds; the selected file, preview, button enablement, results visibility
and fetch count are untouched. -/
theorem claim_C3 (s : UploaderState) (f : JsFile) (h : f.size > s.maxFileSize) :
    processFile s f = showAlert s "File size exceeds 50MB limit." AlertType.error ∧
    (processFile s f).currentFile = s.currentFile ∧
    (processFile s f).filePreview = s.filePreview ∧
    (processFile s f).analyzeBtnDisabled = s.analyzeBtnDisabled ∧
    (processFile s f).resultsCardVisible = s.resultsCardVisible ∧
    (processFile s f).fetchCount = s.fetchCount ∧
    (processFile s f).alerts = s.alerts ++
      [{ message := "File size exceeds 50MB limit.", alertType := AlertType.error,
         dismissMs := 5000 }] := by
  have hval : validateFile s f = (false, some "File size exceeds 50MB limit.") := by
    simp [validateFile, h]
  refine ⟨?_, ?_⟩
  · simp [processFile, hval]
  · simp [processFile, hval, showAlert]

/-- C3 witness: the 60 MiB file is rejected and the state is otherwise intact. -/
theorem claim_C3_witness :
    processFile initState bigFile =
      showAlert initState "File size exceeds 50MB limit." AlertType.error ∧
    (processFile initState bigFile).currentFile = initState.currentFile ∧
    (processFile initState bigFile).filePreview = initState.filePreview ∧
    (processFile initState bigFile).analyzeBtnDisabled = initState.analyzeBtnDisabled ∧
    (processFile initState bigFile).resultsCardVisible = initState.resultsCardVisible ∧
    (processFile initState bigFile).fetchCount = initState.fetchCount ∧
    (processFile initState bigFile).alerts = initState.alerts ++
      [{ message := "File size exceeds 50MB limit.", alertType := AlertType.error,
         dismissMs := 5000 }] :=
  claim_C3 initState bigFile (by decide)

/-- C4: any file within the size limit is accepted whatever its extension or
MIME type: it becomes the current file, the analyze button is enabled, prior
results are hidden, the info block is shown, and no fetch or alert occurs. -/
theorem claim_C4 (s : UploaderState) (f : JsFile) (h : f.size ≤ s.maxFileSize) :
    (validateFile s f).1 = true ∧
    (processFile s f).currentFile = some f ∧
    (processFile s f).analyzeBtnDisabled = false ∧
    (processFile s f).resultsCardVisible = false ∧
    (processFile s f).fileInfoVisible = true ∧
    (processFile s f).fetchCount = s.fetchCount ∧
    (processFile s f).alerts = s.alerts := by
  have hnot : ¬ (f.size > s.maxFileSize) := not_lt.mpr h
  have hval : validateFile s f = (true, none) := by
    simp [validateFile, hnot]
  simp [processFile, hval, hideResults, enableAnalyzeButton, createFilePreview,
    displayFileInfo]

/-- C4 witness: a file with a non-image extension and MIME type outside
`allowedFormats` is accepted. -/
theorem claim_C4_witness :
    (validateFile initState oddFile).1 = true ∧
    (processFile initState oddFile).currentFile = some oddFile ∧
    (processFile initState oddFile).analyzeBtnDisabled = false ∧
    (processFile initState oddFile).resultsCardVisible = false ∧
    (processFile initState oddFile).fileInfoVisible = true ∧
    (processFile initState oddFile).fetchCount = initState.fetchCount ∧
    (processFile initState oddFile).alerts = initState.alerts :=
  claim_C4 initState oddFile (by decide)

/-- C7: `removeFile()` reaches the Empty state from every prior state — file and
input value cleared, info block hidden, analyze disabled, progress and results
hidden, preview cleared — and is idempotent. As a total function it raises no
error from any state, the Empty state included. -/
theorem claim_C7 (s : UploaderState) :
    (removeFile s).currentFile = none ∧
    (removeFile s).fileInputValue = "" ∧
    (removeFile s).fileInfoVisible = false ∧
    (removeFile s).analyzeBtnDisabled = true ∧
    (removeFile s).progressVisible = false ∧
    (removeFile s).resultsCardVisible = false ∧
    (removeFile s).filePreview = PreviewContent.empty ∧
    removeFile (removeFile s) = removeFile s := by
  simp [removeFile]

/-- C8: `analyze()` with no file selected only appends the error alert; neither
the fetch count nor progress, button, preview, or results visibility change. -/
theorem claim_C8 (s : UploaderState) (o : FetchOutcome) (h : s.currentFile = none) :
    analyzeFile s o = showAlert s "No file selected for analysis" AlertType.error ∧
    (analyzeFile s o).fetchCount = s.fetchCount ∧
    (analyzeFile s o).progressVisible = s.progressVisible ∧
    (analyzeFile s o).analyzeBtnDisabled = s.analyzeBtnDisabled ∧
    (analyzeFile s o).filePreview = s.filePreview ∧
    (analyzeFile s o).resultsCardVisible = s.resultsCardVisible ∧
    (analyzeFile s o).alerts = s.alerts ++
      [{ message := "No file selected for analysis", alertType := AlertType.error,
         dismissMs := 5000 }] := by
  refine ⟨?_, ?_⟩
  · simp [analyzeFile, analyzeStart, h]
  · simp [analyzeFile, analyzeStart, h, showAlert]

/-- C8 witness: on the freshly loaded page, analyzing with no file only alerts. -/
theorem claim_C8_witness :
    analyzeFile initState (FetchOutcome.networkError "unused") =
      showAlert initState "No file selected for analysis" AlertType.error ∧
    (analyzeFile initState (FetchOutcome.networkError "unused")).fetchCount =
      initState.fetchCount ∧
    (analyzeFile initState (FetchOutcome.networkError "unused")).progressVisible =
      initState.progressVisible ∧
    (analyzeFile initState (FetchOutcome.networkError "unused")).analyzeBtnDisabled =
      initState.analyzeBtnDisabled ∧
    (analyzeFile initState (FetchOutcome.networkError "unused")).filePreview =
      initState.filePreview ∧
    (analyzeFile initState (FetchOutcome.networkError "unused")).resultsCardVisible =
      initState.resultsCardVisible ∧
    (analyzeFile initState (FetchOutcome.networkError "unused")).alerts =
      initState.alerts ++
        [{ message := "No file selected for analysis", alertType := AlertType.error,
           dismissMs := 5000 }] :=
  claim_C8 initState (FetchOutcome.networkError "unused") rfl

/-- C5 counterexample: on a 500 response with body `{"error":"model unavailable"}`
the displayed notification message is `Analysis failed: model unavailable`, not
the bare server-provided field; and on an unparseable body the message carries
the JSON parse failure, not the generic fallback `Server error during analysis.`. -/
theorem claim_C5_counterexample :
    (analyzeFile csA
        (FetchOutcome.response false (BodyOutcome.obj (some "model unavailable") none))).alerts =
      [{ message := "Analysis failed: model unavailable", alertType := AlertType.error,
         dismissMs := 5000 }] ∧
    ("Analysis failed: model unavailable" : String) ≠ "model unavailable" ∧
    (analyzeFile csA
        (FetchOutcome.response false (BodyOutcome.parseError "Unexpected token < in JSON"))).alerts =
      [{ message := "Analysis failed: Unexpected token < in JSON", alertType := AlertType.error,
         dismissMs := 5000 }] ∧
    ("Analysis failed: Unexpected token < in JSON" : String) ≠
      "Analysis failed: Server error during analysis." := by
  refine ⟨by decide, by decide, by decide, by decide⟩

/-- C5 amended: for every non-2xx response, `analyze()` ends with progress hidden
and appends one error notification whose message is `Analysis failed: ` followed
by the server-provided `error` field when that field is present and non-empty,
by the generic `Server error during analysis.` when the body parses but the
field is absent or empty, and by the parse failure message when the body is
unparseable as JSON. -/
theorem claim_C5_amended (s : UploaderState) (f : JsFile) (err : Option String)
    (pred : Option String) (pmsg : String) (h : s.currentFile = some f) :
    ((analyzeFile s (FetchOutcome.response false (BodyOutcome.obj err pred))).progressVisible =
        false ∧
      (analyzeFile s (FetchOutcome.response false (BodyOutcome.obj err pred))).alerts =
        s.alerts ++
          [{ message := "Analysis failed: " ++ jsStringOr err "Server error during analysis.",
             alertType := AlertType.error, dismissMs := 5000 }]) ∧
    ((analyzeFile s (FetchOutcome.response false (BodyOutcome.parseError pmsg))).progressVisible =
        false ∧
      (analyzeFile s (FetchOutcome.response false (BodyOutcome.parseError pmsg))).alerts =
        s.alerts ++
          [{ message := "Analysis failed: " ++ pmsg, alertType := AlertType.error,
             dismissMs := 5000 }]) := by
  have hne : s.currentFile ≠ none := by simp [h]
  have halerts := analyzeStart_alerts s hne
  rw [analyzeFile_some s f _ h, analyzeFile_some s f _ h]
  refine ⟨⟨analyzeResume_progress _ _, ?_⟩, ⟨analyzeResume_progress _ _, ?_⟩⟩
  · rw [show (analyzeResume (analyzeStart s).1
        (FetchOutcome.response false (BodyOutcome.obj err pred))).alerts =
        (analyzeStart s).1.alerts ++
          [{ message := "Analysis failed: " ++ jsStringOr err "Server error during analysis.",
             alertType := AlertType.error, dismissMs := 5000 }] from by
      simp [analyzeResume, finallyHandler, catchHandler, showAlert, hideProgress,
        updateProgress], halerts]
  · rw [show (analyzeResume (analyzeStart s).1
        (FetchOutcome.response false (BodyOutcome.parseError pmsg))).alerts =
        (analyzeStart s).1.alerts ++
          [{ message := "Analysis failed: " ++ pmsg, alertType := AlertType.error,
             dismissMs := 5000 }] from by
      simp [analyzeResume, finallyHandler, catchHandler, showAlert, hideProgress,
        updateProgress], halerts]

/-- C5 amended witness: Scenario D concretely, on the selected 2 MiB PNG. -/
theorem claim_C5_amended_witness :
    ((analyzeFile csA
        (FetchOutcome.response false
          (BodyOutcome.obj (some "model unavailable") none))).progressVisible = false ∧
      (analyzeFile csA
          (FetchOutcome.response false
            (BodyOutcome.obj (some "model unavailable") none))).alerts =
        csA.alerts ++
          [{ message :=
               "Analysis failed: " ++
                 jsStringOr (some "model unavailable") "Server error during analysis.",
             alertType := AlertType.error, dismissMs := 5000 }]) ∧
    ((analyzeFile csA
        (FetchOutcome.response false
          (BodyOutcome.parseError "Unexpected token < in JSON"))).progressVisible = false ∧
      (analyzeFile csA
          (FetchOutcome.response false
            (BodyOutcome.parseError "Unexpected token < in JSON"))).alerts =
        csA.alerts ++
          [{ message := "Analysis failed: " ++ "Unexpected token < in JSON",
             alertType := AlertType.error, dismissMs := 5000 }]) :=
  claim_C5_amended csA exFile (some "model unavailable") none "Unexpected token < in JSON" rfl

/-- The markup `showResults` produces for the label `notumor`. -/
def notumorRender : RenderedResult where
  branch := ResultBranch.notumor
  icon := "fa-check-circle"
  color := "var(--success)"
  labelText := "notumor"
  labelTransform := "capitalize"

/-- C6 counterexample: for the sentinel label `notumor` itself, the result markup
carries `text-transform: capitalize`, so the user-visible text is `Notumor`,
which differs from the original casing of the label. -/
theorem claim_C6_counterexample :
    (showResults csA "notumor").resultsContent = some notumorRender ∧
    displayedLabel notumorRender = "Notumor" ∧
    ("Notumor" : String) ≠ "notumor" := by
  refine ⟨by decide, by decide, by decide⟩

/-- C6 amended: `showResults` shows the results card and renders the neutral
branch exactly when the case-insensitive label equals `notumor`, the warning
branch otherwise; the label string is interpolated verbatim into the markup,
but under the inline `text-transform: capitalize` style, so the user-visible
text is the CSS capitalization of the label rather than its original casing. -/
theorem claim_C6_amended (s : UploaderState) (p : String) :
    (showResults s p).resultsCardVisible = true ∧
    ∃ r, (showResults s p).resultsContent = some r ∧
      r.labelText = p ∧
      r.labelTransform = "capitalize" ∧
      displayedLabel r = cssCapitalize p ∧
      (r.branch = ResultBranch.notumor ↔ jsToLowerCase p = "notumor") ∧
      (r.branch = ResultBranch.tumor ↔ jsToLowerCase p ≠ "notumor") := by
  by_cases hp : jsToLowerCase p = "notumor"
  · refine ⟨by simp [showResults], ?_⟩
    refine ⟨RenderedResult.mk ResultBranch.notumor "fa-check-circle" "var(--success)" p
      "capitalize", ?_, rfl, rfl, by simp [displayedLabel], ?_, ?_⟩
    · simp [showResults, hp]
    · simpa using hp
    · simpa using hp
  · refine ⟨by simp [showResults], ?_⟩
    refine ⟨RenderedResult.mk ResultBranch.tumor "fa-exclamation-triangle" "var(--warning)" p
      "capitalize", ?_, rfl, rfl, by simp [displayedLabel], ?_, ?_⟩
    · simp [showResults, hp]
    · simpa using hp
    · simpa using hp

/-- C10 counterexample: after a completed successful analysis (results shown,
file still selected), a further `analyze()` call answered by a 2xx response
whose body lacks `prediction` ends with the results panel still showing the
previous result, because `analyzeFile` never hides the results card. -/
theorem claim_C10_counterexample :
    csB.resultsCardVisible = true ∧
    csB.currentFile = some exFile ∧
    (analyzeFile csB (FetchOutcome.response true (BodyOutcome.obj none none))).resultsCardVisible =
      true ∧
    (analyzeFile csB (FetchOutcome.response true (BodyOutcome.obj none none))).resultsContent =
      csB.resultsContent := by
  refine ⟨by decide, by decide, by decide, by decide⟩

/-- C10 amended: for every 2xx response whose JSON body lacks a string
`prediction` field, `analyze()` does not newly show results — the results
panel visibility and content are exactly what they were before the call (in
particular they stay hidden when they were hidden) — the thrown `TypeError`
is caught, the progress indicator ends hidden, the trigger is re-enabled, and
an error notification is shown instead of the success path. -/
theorem claim_C10_amended (s : UploaderState) (f : JsFile) (e : Option String)
    (h : s.currentFile = some f) :
    (analyzeFile s (FetchOutcome.response true (BodyOutcome.obj e none))).resultsCardVisible =
      s.resultsCardVisible ∧
    (analyzeFile s (FetchOutcome.response true (BodyOutcome.obj e none))).resultsContent =
      s.resultsContent ∧
    (analyzeFile s (FetchOutcome.response true (BodyOutcome.obj e none))).progressVisible =
      false ∧
    (analyzeFile s (FetchOutcome.response true (BodyOutcome.obj e none))).analyzeBtnDisabled =
      false ∧
    (analyzeFile s (FetchOutcome.response true (BodyOutcome.obj e none))).alerts =
      s.alerts ++
        [{ message := "Analysis failed: " ++ typeErrorMissingPrediction,
           alertType := AlertType.error, dismissMs := 5000 }] := by
  have hne : s.currentFile ≠ none := by simp [h]
  rw [analyzeFile_some s f _ h]
  have hstart : (analyzeStart s).1.resultsCardVisible = s.resultsCardVisible ∧
      (analyzeStart s).1.resultsContent = s.resultsContent ∧
      (analyzeStart s).1.alerts = s.alerts := by
    match hs : s.currentFile with
    | none => exact absurd hs hne
    | some f => simp [analyzeStart, hs, showProgress, updateProgress]
  refine ⟨?_, ?_, analyzeResume_progress _ _, analyzeResume_btn _ _, ?_⟩
  · rw [show ∀ t, (analyzeResume t
        (FetchOutcome.response true (BodyOutcome.obj e none))).resultsCardVisible =
        t.resultsCardVisible from fun t => by
      simp [analyzeResume, finallyHandler, catchHandler, showAlert, hideProgress,
        updateProgress], hstart.1]
  · rw [show ∀ t, (analyzeResume t
        (FetchOutcome.response true (BodyOutcome.obj e none))).resultsContent =
        t.resultsContent from fun t => by
      simp [analyzeResume, finallyHandler, catchHandler, showAlert, hideProgress,
        updateProgress], hstart.2.1]
  · rw [show ∀ t, (analyzeResume t
        (FetchOutcome.response true (BodyOutcome.obj e none))).alerts =
        t.alerts ++
          [{ message := "Analysis failed: " ++ typeErrorMissingPrediction,
             alertType := AlertType.error, dismissMs := 5000 }] from fun t => by
      simp [analyzeResume, finallyHandler, catchHandler, showAlert, hideProgress,
        updateProgress], hstart.2.2]

/-- C10 amended witness: the concrete post-success state with results showing. -/
theorem claim_C10_amended_witness :
    (analyzeFile csB (FetchOutcome.response true (BodyOutcome.obj none none))).resultsCardVisible =
      csB.resultsCardVisible ∧
    (analyzeFile csB (FetchOutcome.response true (BodyOutcome.obj none none))).resultsContent =
      csB.resultsContent ∧
    (analyzeFile csB (FetchOutcome.response true (BodyOutcome.obj none none))).progressVisible =
      false ∧
    (analyzeFile csB (FetchOutcome.response true (BodyOutcome.obj none none))).analyzeBtnDisabled =
      false ∧
    (analyzeFile csB (FetchOutcome.response true (BodyOutcome.obj none none))).alerts =
      csB.alerts ++
        [{ message := "Analysis failed: " ++ typeErrorMissingPrediction,
           alertType := AlertType.error, dismissMs := 5000 }] :=
  claim_C10_amended csB exFile none rfl

/-- Machine state after selecting `exFile` on the fresh page. -/
def mA : MachineState where
  ctrl := csA
  inFlight := 0

/-- Machine state after clicking analyze: one request in flight. -/
def mB : MachineState where
  ctrl := (analyzeStart csA).1
  inFlight := 1

/-- Machine state after selecting `exFile` again while the request is in
flight: the selection re-enables the analyze button. -/
def mC : MachineState where
  ctrl := processFile mB.ctrl exFile
  inFlight := 1

/-- Machine state after clicking analyze again: two requests in flight. -/
def mD : MachineState where
  ctrl := (analyzeStart mC.ctrl).1
  inFlight := 2

/-- C9 counterexample: the page can reach a state with one request in flight
and the analyze trigger enabled (a new selection re-enabled it), from which a
second analyze action is permitted, reaching two requests in flight. -/
theorem claim_C9_counterexample :
    Reachable mC ∧
    mC.inFlight = 1 ∧
    mC.ctrl.analyzeBtnDisabled = false ∧
    Step mC mD ∧
    mD.inFlight = 2 := by
  refine ⟨?_, rfl, by decide, ?_, rfl⟩
  · have s1 : Step initMachine mA := Step.select initMachine exFile
    have s2 : Step mA mB := Step.clickStart mA (by decide) (by decide)
    have s3 : Step mB mC := Step.select mB exFile
    exact Relation.ReflTransGen.tail
      (Relation.ReflTransGen.tail (Relation.ReflTransGen.tail Relation.ReflTransGen.refl s1) s2) s3
  · exact Step.clickStart mC (by decide) (by decide)

/-- C9 amended: one analyze action at a time holds only on executions where no
file is selected while a request is in flight: along `StepNoReselect` at most
one request is ever in flight, and while it is, the analyze trigger is
disabled, so a further analyze action is not permitted. (Selecting a file
during an in-flight request re-enables the trigger and breaks the invariant,
as the counterexample shows.) -/
theorem stepNR_preserves (a b : MachineState) (hstep : StepNoReselect a b)
    (ih : a.inFlight ≤ 1 ∧ (a.inFlight = 1 → a.ctrl.analyzeBtnDisabled = true)) :
    b.inFlight ≤ 1 ∧ (b.inFlight = 1 → b.ctrl.analyzeBtnDisabled = true) := by
  cases hstep with
  | select f hidle =>
      refine ⟨?_, ?_⟩
      · simp [hidle]
      · intro hx
        simp [hidle] at hx
  | remove =>
      refine ⟨ih.1, fun _ => ?_⟩
      simp [removeFile]
  | clickNoFile henabled hfile =>
      have hle := ih.1
      have h0 : a.inFlight = 0 := by
        by_contra hne0
        have h1 : a.inFlight = 1 := by omega
        rw [ih.2 h1] at henabled
        cases henabled
      refine ⟨?_, ?_⟩
      · simp [h0]
      · intro hx
        simp [h0] at hx
  | clickStart henabled hfile =>
      have hle := ih.1
      have h0 : a.inFlight = 0 := by
        by_contra hne0
        have h1 : a.inFlight = 1 := by omega
        rw [ih.2 h1] at henabled
        cases henabled
      refine ⟨by simp [h0], fun _ => ?_⟩
      simpa using analyzeStart_disables a.ctrl hfile
  | settle o hpending =>
      have hle := ih.1
      refine ⟨?_, ?_⟩
      · simp only []
        omega
      · intro hx
        exfalso
        simp only [] at hx
        omega

theorem claim_C9_amended (m : MachineState) (h : ReachableNoReselect m) :
    m.inFlight ≤ 1 ∧ (m.inFlight = 1 → m.ctrl.analyzeBtnDisabled = true) := by
  unfold ReachableNoReselect at h
  induction h with
  | refl => exact ⟨by decide, by decide⟩
  | tail hreach hstep ih => exact stepNR_preserves _ _ hstep ih

/-- C9 amended witness: the initial machine state satisfies the invariant. -/
theorem claim_C9_amended_witness :
    initMachine.inFlight ≤ 1 ∧
    (initMachine.inFlight = 1 → initMachine.ctrl.analyzeBtnDisabled = true) :=
  claim_C9_amended initMachine Relation.ReflTransGen.refl
